import Mathlib

/-!
Shallow embedding of the BunBackEndV2 CRUD API (blogs / projects, two backend
variants: a relational drizzle-backed storage layer and a Firestore-backed set
of route handlers), together with the image-upload handlers.

Modelling conventions:
* timestamps are natural numbers (`Nat`); `new Date()` / `Timestamp.now()` at a
  request is passed in as an explicit `now : Nat` parameter;
* JavaScript `undefined` vs `null` vs a value is modelled with nested options:
  for a field of payload type, `none` means the key is absent (undefined),
  `some none` means an explicit `null`, `some (some v)` means the value `v`;
* string-format checks performed by zod (`.url()`, `.datetime()`) are
  abstracted by typing those fields with already-parsed values; the length and
  presence checks, defaults and enum constraints are modelled faithfully;
* a relational table is a `List Blog` (resp. `List Project`) of rows, a
  Firestore collection is a `List (String × BlogDoc)` of (document id, data)
  pairs; executing one SQL UPDATE/DELETE statement or one Firestore
  `update`/`delete` call counts as one issued write, returned as a `Nat`.
-/

namespace BunBackend

/-- Entity status enum: `{draft, published}` (shared/schema.ts, validation.ts). -/
inductive Status where
  | draft
  | published
deriving DecidableEq, Repr

/-- Relational blog row (storage.ts / shared schema): id, title, excerpt,
content, coverImageUrl, status, publishedAt, createdAt, updatedAt. -/
structure Blog where
  id : Nat
  title : String
  excerpt : Option String
  content : String
  coverImageUrl : Option String
  status : Status
  publishedAt : Option Nat
  createdAt : Nat
  updatedAt : Nat
deriving DecidableEq, Repr

/-- Relational project row (storage.ts / shared schema). -/
structure Project where
  id : Nat
  title : String
  excerpt : Option String
  abstract : Option String
  projectScope : Option String
  isGroup : Bool
  projectLink : Option String
  githubLink : Option String
  documentationLink : Option String
  content : Option String
  coverImageUrl : Option String
  status : Status
  publishedAt : Option Nat
  createdAt : Nat
  updatedAt : Nat
deriving DecidableEq, Repr

/-- Firestore blog document data (shared/schema.ts `Blog` minus the id, which
is the document key). -/
structure BlogDoc where
  title : String
  excerpt : Option String
  content : String
  coverImageUrl : Option String
  status : Status
  publishedAt : Option Nat
  createdAt : Nat
  updatedAt : Nat
deriving DecidableEq, Repr

/-- Firestore project document data, fields of `projectBaseSchema`
(routes/projects.ts) plus the timestamps added by the POST handler. -/
structure ProjectDoc where
  title : String
  content : String
  projectLink : String
  githubLink : String
  documentationLink : Option String
  coverImageUrl : String
  isGroup : Bool
  status : Status
  publishedAt : Option Nat
  createdAt : Nat
  updatedAt : Nat
deriving DecidableEq, Repr

/-- Raw (pre-validation) blog create payload. `status` and `publishedAt` may be
absent; `publishedAt` may also be an explicit null (`some none`). -/
structure RawCreateBlog where
  title : String
  excerpt : Option String
  content : String
  coverImageUrl : Option String
  status : Option Status
  publishedAt : Option (Option Nat)
deriving DecidableEq, Repr

/-- Validated blog create payload, output of `createBlogSchema.parse`:
`status` has been defaulted, `publishedAt` keeps its three-valued shape
(absent / null / datetime). -/
structure CreateBlogInput where
  title : String
  excerpt : Option String
  content : String
  coverImageUrl : Option String
  status : Status
  publishedAt : Option (Option Nat)
deriving DecidableEq, Repr

/-- Validated blog update payload, output of `updateBlogSchema.parse`: every
field optional; nullable fields are three-valued (absent / null / value). -/
structure UpdateBlogInput where
  title : Option String
  excerpt : Option (Option String)
  content : Option String
  coverImageUrl : Option (Option String)
  status : Option Status
  publishedAt : Option (Option Nat)
deriving DecidableEq, Repr

/-- Validation failure: list of (field path, message) pairs, as produced from
`error.errors` by the validation middleware. -/
abbrev ValidationErrors := List (String × String)

/-- Aggregated zod issues of `createBlogSchema` (middleware/validation.ts):
title required, non-empty, at most 255 characters; content required,
non-empty. -/
def createBlogErrors (raw : RawCreateBlog) : ValidationErrors :=
  (if raw.title.length < 1 then [("title", "Title is required")] else []) ++
  (if raw.title.length > 255 then [("title", "Title must be 255 characters or less")] else []) ++
  (if raw.content.length < 1 then [("content", "Content is required")] else [])

/-- Embedding of `createBlogSchema.parse`: succeeds exactly when there are no
issues; `status` defaults to `draft` when absent; other fields pass through. -/
def createBlogSchemaParse (raw : RawCreateBlog) : Except ValidationErrors CreateBlogInput :=
  match createBlogErrors raw with
  | [] =>
    Except.ok
      { title := raw.title
        excerpt := raw.excerpt
        content := raw.content
        coverImageUrl := raw.coverImageUrl
        status := raw.status.getD Status.draft
        publishedAt := raw.publishedAt }
  | e :: es => Except.error (e :: es)

/-- Raw (pre-validation) project create payload for the relational
`createProjectSchema` (middleware/validation.ts): only `title` is required
there; `status` defaults to draft, `isGroup` defaults to false. -/
structure RawCreateProject where
  title : String
  excerpt : Option String
  abstract : Option String
  projectScope : Option String
  isGroup : Option Bool
  projectLink : Option String
  githubLink : Option String
  documentationLink : Option String
  content : Option String
  coverImageUrl : Option String
  status : Option Status
  publishedAt : Option (Option Nat)
deriving DecidableEq, Repr

/-- Validated project create payload (relational variant). -/
structure CreateProjectInput where
  title : String
  excerpt : Option String
  abstract : Option String
  projectScope : Option String
  isGroup : Bool
  projectLink : Option String
  githubLink : Option String
  documentationLink : Option String
  content : Option String
  coverImageUrl : Option String
  status : Status
  publishedAt : Option (Option Nat)
deriving DecidableEq, Repr

/-- Aggregated zod issues of `createProjectSchema` (middleware/validation.ts):
only the title carries non-format constraints there. -/
def createProjectErrors (raw : RawCreateProject) : ValidationErrors :=
  (if raw.title.length < 1 then [("title", "Title is required")] else []) ++
  (if raw.title.length > 255 then [("title", "Title must be 255 characters or less")] else [])

/-- Embedding of `createProjectSchema.parse` (middleware/validation.ts): title
required, non-empty, at most 255 characters; `isGroup` defaults to `false`;
`status` defaults to `draft`. -/
def createProjectSchemaParse (raw : RawCreateProject) : Except ValidationErrors CreateProjectInput :=
  match createProjectErrors raw with
  | [] =>
    Except.ok
      { title := raw.title
        excerpt := raw.excerpt
        abstract := raw.abstract
        projectScope := raw.projectScope
        isGroup := raw.isGroup.getD false
        projectLink := raw.projectLink
        githubLink := raw.githubLink
        documentationLink := raw.documentationLink
        content := raw.content
        coverImageUrl := raw.coverImageUrl
        status := raw.status.getD Status.draft
        publishedAt := raw.publishedAt }
  | e :: es => Except.error (e :: es)

/-- Raw payload for the Firestore project POST body, validated against
`projectBaseSchema` (routes/projects.ts lines 34-44). Every key there is
required (no `.optional()`, no `.default(...)`); `documentationLink` and
`publishedAt` are `.nullable()`. An absent key is `none`. -/
structure RawFsProjectCreate where
  title : Option String
  content : Option String
  projectLink : Option String
  githubLink : Option String
  documentationLink : Option (Option String)
  coverImageUrl : Option String
  isGroup : Option Bool
  status : Option Status
  publishedAt : Option (Option Nat)
deriving DecidableEq, Repr

/-- Validated Firestore project create payload (output of
`projectBaseSchema.parse`). -/
structure FsProjectCreateInput where
  title : String
  content : String
  projectLink : String
  githubLink : String
  documentationLink : Option String
  coverImageUrl : String
  isGroup : Bool
  status : Status
  publishedAt : Option Nat
deriving DecidableEq, Repr

/-- Aggregated zod `Required` issues of `projectBaseSchema` (one per missing
key, in schema order). -/
def projectBaseErrors (raw : RawFsProjectCreate) : ValidationErrors :=
  (if raw.title.isNone then [("title", "Required")] else []) ++
  (if raw.content.isNone then [("content", "Required")] else []) ++
  (if raw.projectLink.isNone then [("projectLink", "Required")] else []) ++
  (if raw.githubLink.isNone then [("githubLink", "Required")] else []) ++
  (if raw.documentationLink.isNone then [("documentationLink", "Required")] else []) ++
  (if raw.coverImageUrl.isNone then [("coverImageUrl", "Required")] else []) ++
  (if raw.isGroup.isNone then [("isGroup", "Required")] else []) ++
  (if raw.status.isNone then [("status", "Required")] else []) ++
  (if raw.publishedAt.isNone then [("publishedAt", "Required")] else [])

/-- Embedding of `projectBaseSchema` (routes/projects.ts): every field is
required; a missing key yields a zod `Required` issue for that path. In
particular `status` has no default and `publishedAt` is required-but-nullable. -/
def projectBaseSchemaParse (raw : RawFsProjectCreate) : Except ValidationErrors FsProjectCreateInput :=
  match raw.status, raw.title, raw.content, raw.projectLink, raw.githubLink,
      raw.documentationLink, raw.coverImageUrl, raw.isGroup, raw.publishedAt with
  | some st, some t, some c, some pl, some gl, some dl, some cu, some ig, some pa =>
    Except.ok
      { title := t, content := c, projectLink := pl, githubLink := gl
        documentationLink := dl, coverImageUrl := cu, isGroup := ig
        status := st, publishedAt := pa }
  | _, _, _, _, _, _, _, _, _ => Except.error (projectBaseErrors raw)

/-! ### Relational storage layer (storage.ts) -/

/-- Storage-level blog insert payload (`InsertBlog`): the row fields minus the
id and timestamps assigned at insert. `publishedAt` here is `Option Nat`
because the route has already converted the payload value to a `Date` or
`null`. -/
structure InsertBlog where
  title : String
  excerpt : Option String
  content : String
  coverImageUrl : Option String
  status : Status
  publishedAt : Option Nat
deriving DecidableEq, Repr

/-- Storage-level blog update payload, the object passed to drizzle `.set`:
an absent field (`none` at the outer level) is skipped by the database write,
nullable fields may be set to SQL NULL (`some none`), and `publishedAt` is a
plain `Option Nat` because the route collapses an explicit null to
`undefined`. -/
structure UpdateBlogData where
  title : Option String
  excerpt : Option (Option String)
  content : Option String
  coverImageUrl : Option (Option String)
  status : Option Status
  publishedAt : Option Nat
deriving DecidableEq, Repr

/-- Next serial id assigned by the database on insert: one more than the
largest id already present. -/
def nextBlogId (store : List Blog) : Nat :=
  (store.map Blog.id).foldr max 0 + 1

/-- Modelled from the spec: the drizzle table definition for `blogs` is not in
src/ (only its uses in storage.ts are); per the spec, the persistence layer
assigns a fresh `id` and a creation timestamp at insert
(`insertEntity(fields) -> Entity` assigns id, createdAt, updatedAt). The row
is appended with a fresh serial id and `createdAt := now`; the other columns
come from the values object built by `createBlog`. -/
def dbInsertBlog (store : List Blog) (d : InsertBlog) (updatedAt now : Nat) :
    List Blog × Blog :=
  let row : Blog :=
    { id := nextBlogId store
      title := d.title
      excerpt := d.excerpt
      content := d.content
      coverImageUrl := d.coverImageUrl
      status := d.status
      publishedAt := d.publishedAt
      createdAt := now
      updatedAt := updatedAt }
  (store ++ [row], row)

/-- Embedding of `BlogStorage.createBlog` (storage.ts lines 37-53): spread the
insert payload, set `updatedAt` to now, and if status is `published` with no
`publishedAt`, stamp `publishedAt` with the current time; then insert and
return the created row. -/
def createBlog (store : List Blog) (insertBlog : InsertBlog) (now : Nat) :
    List Blog × Blog :=
  let blogData :=
    if insertBlog.status = Status.published ∧ insertBlog.publishedAt = none then
      { insertBlog with publishedAt := some now }
    else insertBlog
  dbInsertBlog store blogData now now

/-- Drizzle `.set` semantics on a single row: apply exactly the defined fields
of the update object, skip the `undefined` ones, and set `updatedAt`. -/
def applyUpdateBlog (b : Blog) (u : UpdateBlogData) (now : Nat) : Blog :=
  { b with
    title := u.title.getD b.title
    excerpt := u.excerpt.getD b.excerpt
    content := u.content.getD b.content
    coverImageUrl := u.coverImageUrl.getD b.coverImageUrl
    status := u.status.getD b.status
    publishedAt :=
      match u.publishedAt with
      | some t => some t
      | none => b.publishedAt
    updatedAt := now }

/-- Publish-timestamp rule of `BlogStorage.updateBlog` (storage.ts lines
61-64): if status is being changed to published and no `publishedAt` date is
in the update object, set it to now. -/
def stampUpdate (u : UpdateBlogData) (now : Nat) : UpdateBlogData :=
  if u.status = some Status.published ∧ u.publishedAt = none then
    { u with publishedAt := some now }
  else u

/-- Embedding of `BlogStorage.updateBlog` (storage.ts lines 55-73): build the
update object with a refreshed `updatedAt`, stamp `publishedAt` when the
update sets status to published without a `publishedAt`, then execute one
UPDATE ... WHERE id statement and return the updated row (or none when no row
matched). The third component counts the SQL write statements issued: the
UPDATE statement is always executed, whether or not a row matches. -/
def updateBlog (store : List Blog) (id : Nat) (u : UpdateBlogData) (now : Nat) :
    List Blog × Option Blog × Nat :=
  let updateData := stampUpdate u now
  let newStore := store.map fun b => if b.id = id then applyUpdateBlog b updateData now else b
  let returned := (store.find? fun b => b.id == id).map fun b => applyUpdateBlog b updateData now
  (newStore, returned, 1)

/-- Embedding of `BlogStorage.deleteBlog` (storage.ts lines 75-82): execute one
DELETE ... WHERE id statement, returning whether any row was removed. The
third component counts the SQL write statements issued (always 1). -/
def deleteBlog (store : List Blog) (id : Nat) : List Blog × Bool × Nat :=
  let remaining := store.filter fun b => b.id != id
  (remaining, store.any fun b => b.id == id, 1)

/-- Embedding of `BlogStorage.getBlog` (storage.ts lines 32-35): SELECT by id,
first matching row or none. -/
def getBlog (store : List Blog) (id : Nat) : Option Blog :=
  store.find? fun b => b.id == id

/-- Descending creation-time order used by `orderBy(desc(blogs.createdAt))`. -/
def createdAtDesc (a b : Blog) : Prop := b.createdAt ≤ a.createdAt

instance : DecidableRel createdAtDesc := fun a b => Nat.decLe b.createdAt a.createdAt

instance : IsTotal Blog createdAtDesc :=
  ⟨fun a b => (Nat.le_total b.createdAt a.createdAt).imp id id⟩

instance : IsTrans Blog createdAtDesc :=
  ⟨fun _ _ _ hab hbc => Nat.le_trans hbc hab⟩

/-- Embedding of `BlogStorage.getAllBlogs` (storage.ts lines 22-30): SELECT all
rows, with a WHERE status clause when a status filter is given, ordered by
`createdAt` descending. -/
def getAllBlogs (store : List Blog) (status : Option Status) : List Blog :=
  let rows :=
    match status with
    | some s => store.filter fun b => b.status == s
    | none => store
  List.insertionSort createdAtDesc rows

/-- Storage-level project insert payload. -/
structure InsertProject where
  title : String
  excerpt : Option String
  abstract : Option String
  projectScope : Option String
  isGroup : Bool
  projectLink : Option String
  githubLink : Option String
  documentationLink : Option String
  content : Option String
  coverImageUrl : Option String
  status : Status
  publishedAt : Option Nat
deriving DecidableEq, Repr

/-- Next serial project id assigned by the database on insert. -/
def nextProjectId (store : List Project) : Nat :=
  (store.map Project.id).foldr max 0 + 1

/-- Modelled from the spec: as for blogs, the drizzle `projects` table
definition is not in src/; the persistence layer assigns a fresh id and
creation timestamp at insert. -/
def dbInsertProject (store : List Project) (d : InsertProject) (updatedAt now : Nat) :
    List Project × Project :=
  let row : Project :=
    { id := nextProjectId store
      title := d.title
      excerpt := d.excerpt
      abstract := d.abstract
      projectScope := d.projectScope
      isGroup := d.isGroup
      projectLink := d.projectLink
      githubLink := d.githubLink
      documentationLink := d.documentationLink
      content := d.content
      coverImageUrl := d.coverImageUrl
      status := d.status
      publishedAt := d.publishedAt
      createdAt := now
      updatedAt := updatedAt }
  (store ++ [row], row)

/-- Embedding of `ProjectStorage.createProject` (storage.ts lines 101-117):
identical publish-timestamp logic as for blogs. -/
def createProject (store : List Project) (insertProject : InsertProject) (now : Nat) :
    List Project × Project :=
  let projectData :=
    if insertProject.status = Status.published ∧ insertProject.publishedAt = none then
      { insertProject with publishedAt := some now }
    else insertProject
  dbInsertProject store projectData now now

/-! ### Relational route handlers (unnamed/part_000 blogs routes, part_001 projects routes) -/

/-- JavaScript-truthiness conversion performed by the relational routes on the
validated `publishedAt`: `validatedData.publishedAt ? new Date(...) : null`
(create) — `null` and `undefined` are both falsy, a datetime string is
truthy. -/
def collapsePublishedAt (p : Option (Option Nat)) : Option Nat :=
  match p with
  | some (some t) => some t
  | _ => none

/-- Embedding of the relational POST /blogs handler (part_000 lines 66-95):
convert `publishedAt` (falsy to null) and call `createBlog`; the created row is
returned as the 201 response data. -/
def createBlogRoutePost (store : List Blog) (validatedData : CreateBlogInput) (now : Nat) :
    List Blog × Blog :=
  let blogData : InsertBlog :=
    { title := validatedData.title
      excerpt := validatedData.excerpt
      content := validatedData.content
      coverImageUrl := validatedData.coverImageUrl
      status := validatedData.status
      publishedAt := collapsePublishedAt validatedData.publishedAt }
  createBlog store blogData now

/-- Update object built by the relational PUT /blogs/:id handler (part_000
lines 103-107): `publishedAt: validatedData.publishedAt ? new Date(...) :
undefined` — a falsy value becomes `undefined`, which drizzle skips. -/
def routeUpdateData (validatedData : UpdateBlogInput) : UpdateBlogData :=
  { title := validatedData.title
    excerpt := validatedData.excerpt
    content := validatedData.content
    coverImageUrl := validatedData.coverImageUrl
    status := validatedData.status
    publishedAt := collapsePublishedAt validatedData.publishedAt }

/-- Embedding of the relational PUT /blogs/:id handler (part_000 lines
98-136): convert the payload with `routeUpdateData` and call `updateBlog`;
`none` in the middle component is the 404 not-found path. -/
def updateBlogRoutePut (store : List Blog) (id : Nat) (validatedData : UpdateBlogInput)
    (now : Nat) : List Blog × Option Blog × Nat :=
  updateBlog store id (routeUpdateData validatedData) now

/-- Embedding of the relational POST /projects handler (part_001): convert
`publishedAt` and call `createProject`. -/
def createProjectRoutePost (store : List Project) (validatedData : CreateProjectInput)
    (now : Nat) : List Project × Project :=
  let projectData : InsertProject :=
    { title := validatedData.title
      excerpt := validatedData.excerpt
      abstract := validatedData.abstract
      projectScope := validatedData.projectScope
      isGroup := validatedData.isGroup
      projectLink := validatedData.projectLink
      githubLink := validatedData.githubLink
      documentationLink := validatedData.documentationLink
      content := validatedData.content
      coverImageUrl := validatedData.coverImageUrl
      status := validatedData.status
      publishedAt := collapsePublishedAt validatedData.publishedAt }
  createProject store projectData now

/-! ### Minimal JSON value model for response bodies -/

/-- JSON value, used to model response bodies exactly as the handlers build
them (in particular which keys are present and which are absent). -/
inductive Json where
  | null
  | bool (b : Bool)
  | num (n : Nat)
  | str (s : String)
  | arr (items : List Json)
  | obj (fields : List (String × Json))

/-- Field lookup in a JSON object; `none` when the key is absent or the value
is not an object. -/
def Json.lookup (j : Json) (key : String) : Option Json :=
  match j with
  | Json.obj fields => (fields.find? fun p => p.1 == key).map Prod.snd
  | _ => none

/-! ### Firestore route handlers (blogs.ts lines 1-165, projects.ts) -/

/-- Lookup of a Firestore document by id in a collection. -/
def fsGetBlog (store : List (String × BlogDoc)) (id : String) : Option BlogDoc :=
  (store.find? fun p => p.1 == id).map Prod.snd

/-- Embedding of the Firestore POST /blogs handler (blogs.ts lines 83-100):
builds the new document with `createdAt` and `updatedAt` set to now and
`publishedAt` from the payload (falsy becomes null — no publish-timestamp
stamping), adds it under the fresh document id generated by Firestore, and
responds 201 with `data: { id: docRef.id }` only. -/
def fsCreateBlogPost (store : List (String × BlogDoc)) (blogData : CreateBlogInput)
    (newId : String) (now : Nat) : List (String × BlogDoc) × Json :=
  let newBlog : BlogDoc :=
    { title := blogData.title
      excerpt := blogData.excerpt
      content := blogData.content
      coverImageUrl := blogData.coverImageUrl
      status := blogData.status
      publishedAt := collapsePublishedAt blogData.publishedAt
      createdAt := now
      updatedAt := now }
  (store ++ [(newId, newBlog)], Json.obj [("id", Json.str newId)])

/-- Three-valued field merge for a Firestore `update` call: a key absent from
the update object leaves the stored value, a present key overwrites it (with
null when the payload value is null). -/
def fsMergeField {α : Type} (cur : Option α) (upd : Option (Option α)) : Option α :=
  match upd with
  | none => cur
  | some v => v

/-- Embedding of the Firestore PUT /blogs/:id handler (blogs.ts lines
110-139): check existence first (404 short-circuits with no write), then build
`finalUpdateData` from the payload plus a refreshed `updatedAt`; a truthy
`publishedAt` is written as a timestamp, an explicitly-present falsy one as
null, an absent one is not touched. There is no publish-timestamp stamping.
The third component counts Firestore write calls (0 on the not-found path). -/
def fsUpdateBlog (store : List (String × BlogDoc)) (id : String)
    (updateData : UpdateBlogInput) (now : Nat) :
    List (String × BlogDoc) × Option BlogDoc × Nat :=
  match fsGetBlog store id with
  | none => (store, none, 0)
  | some doc =>
    let finalDoc : BlogDoc :=
      { title := updateData.title.getD doc.title
        excerpt := fsMergeField doc.excerpt updateData.excerpt
        content := updateData.content.getD doc.content
        coverImageUrl := fsMergeField doc.coverImageUrl updateData.coverImageUrl
        status := updateData.status.getD doc.status
        publishedAt :=
          match updateData.publishedAt with
          | some (some t) => some t
          | some none => none
          | none => doc.publishedAt
        createdAt := doc.createdAt
        updatedAt := now }
    (store.map fun p => if p.1 == id then (p.1, finalDoc) else p, some finalDoc, 1)

/-- Embedding of the Firestore DELETE /blogs/:id handler (blogs.ts lines
149-162): check existence first, 404 with no write when missing, otherwise
delete the document. The third component counts Firestore write calls. -/
def fsDeleteBlog (store : List (String × BlogDoc)) (id : String) :
    List (String × BlogDoc) × Bool × Nat :=
  match fsGetBlog store id with
  | none => (store, false, 0)
  | some _ => (store.filter fun p => p.1 != id, true, 1)

/-- Descending creation-time order on Firestore blog documents, used by
`orderBy('createdAt', 'desc')`. -/
def fsCreatedAtDesc (a b : String × BlogDoc) : Prop :=
  b.2.createdAt ≤ a.2.createdAt

instance : DecidableRel fsCreatedAtDesc := fun a b => Nat.decLe b.2.createdAt a.2.createdAt

instance : IsTotal (String × BlogDoc) fsCreatedAtDesc :=
  ⟨fun a b => (Nat.le_total b.2.createdAt a.2.createdAt).imp id id⟩

instance : IsTrans (String × BlogDoc) fsCreatedAtDesc :=
  ⟨fun _ _ _ hab hbc => Nat.le_trans hbc hab⟩

/-- Embedding of the Firestore GET /blogs handler (blogs.ts lines 41-55): an
optional WHERE status clause followed by orderBy createdAt descending. -/
def fsGetBlogs (store : List (String × BlogDoc)) (status : Option Status) :
    List (String × BlogDoc) :=
  let rows :=
    match status with
    | some s => store.filter fun p => p.2.status == s
    | none => store
  List.insertionSort fsCreatedAtDesc rows

/-- Embedding of the Firestore POST /projects handler (projects.ts lines
121-154): builds the new document with timestamps set to now and `publishedAt`
taken from the (required, nullable) payload field — again no
publish-timestamp stamping — and responds with the full created document. -/
def fsCreateProjectPost (store : List (String × ProjectDoc))
    (validatedData : FsProjectCreateInput) (newId : String) (now : Nat) :
    List (String × ProjectDoc) × ProjectDoc :=
  let newProject : ProjectDoc :=
    { title := validatedData.title
      content := validatedData.content
      projectLink := validatedData.projectLink
      githubLink := validatedData.githubLink
      documentationLink := validatedData.documentationLink
      coverImageUrl := validatedData.coverImageUrl
      isGroup := validatedData.isGroup
      status := validatedData.status
      publishedAt :=
        match validatedData.publishedAt with
        | some t => some t
        | none => none
      createdAt := now
      updatedAt := now }
  (store ++ [(newId, newProject)], newProject)

/-! ### Response envelope bodies, as built literally by the handlers -/

/-- Relational success envelope `{ success: true, data, message }` (part_000,
part_001, index.ts handlers). -/
def relSuccessBody (data : Json) (message : String) : Json :=
  Json.obj [("success", Json.bool true), ("data", data), ("message", Json.str message)]

/-- Relational failure envelope `{ success: false, data: null, error }`. -/
def relFailureBody (error : String) : Json :=
  Json.obj [("success", Json.bool false), ("data", Json.null), ("error", Json.str error)]

/-- Relational GET /blogs catch branch (part_000 lines 24-29). -/
def relFetchBlogsFailure : Json :=
  relFailureBody "Failed to fetch blogs. Please try again later."

/-- Relational not-found body for blog id lookups (part_000 lines 40-45,
112-117, 145-150). -/
def relBlogNotFound (id : Nat) : Json :=
  relFailureBody ("Blog with ID " ++ toString id ++ " not found")

/-- Relational GET /blogs/:id catch branch (part_000 lines 57-62). -/
def relFetchBlogFailure : Json :=
  relFailureBody "Failed to fetch blog. Please try again later."

/-- Relational POST /blogs catch branch (part_000 lines 88-93). -/
def relCreateBlogFailure : Json :=
  relFailureBody "Failed to create blog. Please try again later."

/-- Relational PUT /blogs/:id catch branch (part_000 lines 129-134). -/
def relUpdateBlogFailure : Json :=
  relFailureBody "Failed to update blog. Please try again later."

/-- Relational DELETE /blogs/:id catch branch (part_000 lines 162-167). -/
def relDeleteBlogFailure : Json :=
  relFailureBody "Failed to delete blog. Please try again later."

/-- Every failure body the relational blog routes can emit (for a given id in
the not-found interpolations). -/
def relationalBlogFailureBodies (id : Nat) : List Json :=
  [relFetchBlogsFailure, relFetchBlogFailure, relBlogNotFound id,
   relCreateBlogFailure, relUpdateBlogFailure, relDeleteBlogFailure]

/-- Firestore failure envelope `{ success: false, error }` — note there is no
`data` key (blogs.ts lines 51-54 and the other catch/404 branches). -/
def fsFailureBody (error : String) : Json :=
  Json.obj [("success", Json.bool false), ("error", Json.str error)]

/-- Firestore GET /blogs catch branch (blogs.ts line 53). -/
def fsFetchBlogsFailure : Json := fsFailureBody "Failed to fetch blogs."

/-- Firestore not-found body for blog document lookups (blogs.ts lines 66,
117, 154). -/
def fsBlogNotFound (id : String) : Json :=
  fsFailureBody ("Blog with ID " ++ id ++ " not found")

/-- Firestore GET /blogs/:id catch branch (blogs.ts line 71). -/
def fsFetchBlogFailure : Json := fsFailureBody "Failed to fetch blog."

/-- Firestore POST /blogs catch branch (blogs.ts line 98). -/
def fsCreateBlogFailure : Json := fsFailureBody "Failed to create blog."

/-- Firestore PUT /blogs/:id catch branch (blogs.ts line 137). -/
def fsUpdateBlogFailure : Json := fsFailureBody "Failed to update blog."

/-- Firestore DELETE /blogs/:id catch branch (blogs.ts line 160). -/
def fsDeleteBlogFailure : Json := fsFailureBody "Failed to delete blog."

/-- Every failure body the Firestore blog routes can emit. -/
def firestoreBlogFailureBodies (id : String) : List Json :=
  [fsFetchBlogsFailure, fsFetchBlogFailure, fsBlogNotFound id,
   fsCreateBlogFailure, fsUpdateBlogFailure, fsDeleteBlogFailure]

/-- Details array `[{field, message}, ...]` of a validation failure. -/
def detailsJson (details : ValidationErrors) : Json :=
  Json.arr (details.map fun d =>
    Json.obj [("field", Json.str d.1), ("message", Json.str d.2)])

/-- Body of the 400 response of `validateBody` on a zod error
(middleware/validation.ts lines 68-75): `{ error, details }` — no `success`
and no `data` key. -/
def validateBodyFailure (details : ValidationErrors) : Json :=
  Json.obj [("error", Json.str "Validation failed"), ("details", detailsJson details)]

/-- Body of the 400 response of `validateBody` on malformed JSON
(middleware/validation.ts line 77). -/
def invalidJsonFailure : Json :=
  Json.obj [("error", Json.str "Invalid JSON format")]

/-- Body of the 400 response of `validateQuery` on a zod error
(middleware/validation.ts lines 90-97). -/
def validateQueryFailure (details : ValidationErrors) : Json :=
  Json.obj [("error", Json.str "Invalid query parameters"), ("details", detailsJson details)]

/-- Body of the 400 response of `validateIdParam`
(middleware/validation.ts line 110). -/
def invalidIdFailure : Json :=
  Json.obj [("error", Json.str "Invalid ID parameter. Must be a positive integer.")]

/-- Every failure body the validation middleware can emit. -/
def middlewareFailureBodies (details : ValidationErrors) : List Json :=
  [validateBodyFailure details, invalidJsonFailure, validateQueryFailure details,
   invalidIdFailure]

/-- Firestore success envelope without a message, as on GET /blogs/:id
(blogs.ts line 68): `{ success: true, data }`. -/
def fsGetSuccessBody (data : Json) : Json :=
  Json.obj [("success", Json.bool true), ("data", data)]

/-- Failure-envelope shape the spec asserts for every failure response:
`success` present and false, `data` present and null, `error` a string. -/
def isWellFormedFailure (j : Json) : Prop :=
  j.lookup "success" = some (Json.bool false) ∧
  j.lookup "data" = some Json.null ∧
  ∃ s, j.lookup "error" = some (Json.str s)

/-! ### Image upload handlers -/

/-- Uploaded multipart file as seen by the handlers: original name, MIME
content type, and size in bytes. -/
structure UploadedFile where
  name : String
  mimetype : String
  size : Nat
deriving DecidableEq, Repr

/-- Outcome of an upload handler: an HTTP failure with its status and error
message, a stored file (201) with its generated object name, or — for the
`uploadImage` middleware with no file — fall-through to the next handler. -/
inductive UploadOutcome where
  | failure (status : Nat) (error : String)
  | stored (status : Nat) (filename : String)
  | passthrough
deriving DecidableEq, Repr

/-- Content types accepted by the upload validations (part_002 line 23,
index.ts line 120): `allowedTypes`. -/
def allowedTypes : List String :=
  ["image/jpeg", "image/jpg", "image/png", "image/webp"]

/-- Size limit `5 * 1024 * 1024` bytes (5 MiB). -/
def maxUploadSize : Nat := 5 * 1024 * 1024

/-- Splitting a character list at dots, accumulating the current segment in
reverse: the model of JavaScript `name.split('.')`. -/
def splitDotAux : List Char → List Char → List String
  | [], acc => [String.mk acc.reverse]
  | c :: cs, acc =>
    if c = '.' then String.mk acc.reverse :: splitDotAux cs []
    else splitDotAux cs (c :: acc)

/-- JavaScript `name.split('.')`: the dot-separated segments of the name
(never empty; `""` splits to `[""]`). -/
def splitDot (name : String) : List String :=
  splitDotAux name.data []

/-- Extension extraction of `path.extname(file.name)` (part_002 line 41): the
final dot-separated component prefixed with a dot, empty when the name has no
dot. -/
def extnameOf (name : String) : String :=
  let parts := splitDot name
  if parts.length ≤ 1 then "" else "." ++ parts.getLastD ""

/-- Embedding of the `uploadImage` middleware (unnamed/part_002 lines 12-76):
no file falls through to the next handler; a disallowed content type or an
oversized file is rejected 400 before anything is written; otherwise the
file is written to the uploads directory under a generated name. The first
component is the uploads directory contents. -/
def uploadImage (file : Option UploadedFile) (suffix : String) (disk : List String) :
    List String × UploadOutcome :=
  match file with
  | none => (disk, UploadOutcome.passthrough)
  | some f =>
    if ¬ allowedTypes.contains f.mimetype then
      (disk, UploadOutcome.failure 400 "Only image files (JPEG, PNG, WebP) are allowed")
    else if f.size > maxUploadSize then
      (disk, UploadOutcome.failure 400 "File size must be less than 5MB")
    else
      let filename := "image-" ++ suffix ++ extnameOf f.name
      (disk ++ [filename], UploadOutcome.stored 201 filename)

/-- Last dot-separated component of a filename, as computed by
`file.name.split('.').pop()` (always defined, possibly empty). -/
def lastExtComponent (name : String) : String :=
  (splitDot name).getLastD ""

/-- Embedding of the relational-variant POST /api/upload handler (index.ts
lines 106-180): rejects a missing file, a disallowed content type, and an
oversized file with 400 before writing; otherwise writes the file to the
uploads directory (extension falls back to jpg when empty). -/
def indexUploadPost (file : Option UploadedFile) (suffix : String) (disk : List String) :
    List String × UploadOutcome :=
  match file with
  | none => (disk, UploadOutcome.failure 400 "No image file provided")
  | some f =>
    if ¬ allowedTypes.contains f.mimetype then
      (disk, UploadOutcome.failure 400 "Only image files (JPEG, PNG, WebP) are allowed")
    else if f.size > maxUploadSize then
      (disk, UploadOutcome.failure 400 "File size must be less than 5MB")
    else
      let e := lastExtComponent f.name
      let ext := if e = "" then "jpg" else e
      let filename := "image-" ++ suffix ++ "." ++ ext
      (disk ++ [filename], UploadOutcome.stored 201 filename)

/-- Embedding of the Firestore-variant POST /api/upload handler, which writes
to the Google Cloud Storage bucket (the second file concatenated into
shared/schema.ts, lines 238-280, also present as unnamed/part_003): rejects a
missing file and an oversized file with 400; there is no content-type check;
otherwise saves the object to the bucket with the file's content type. The
bucket is a list of (object name, content type) pairs. -/
def gcsUploadPost (file : Option UploadedFile) (suffix : String)
    (bucket : List (String × String)) : List (String × String) × UploadOutcome :=
  match file with
  | none => (bucket, UploadOutcome.failure 400 "Tidak ada file gambar yang diberikan")
  | some f =>
    if f.size > maxUploadSize then
      (bucket, UploadOutcome.failure 400 "Ukuran file harus kurang dari 5MB")
    else
      let filename := "image-" ++ suffix ++ "." ++ lastExtComponent f.name
      (bucket ++ [(filename, f.mimetype)], UploadOutcome.stored 201 filename)

/-! ### Helper lemmas -/

theorem le_foldr_max (l : List Nat) (x : Nat) (hx : x ∈ l) : x ≤ l.foldr max 0 := by
  induction l with
  | nil => cases hx
  | cons a t ih =>
    rcases List.mem_cons.mp hx with h | h
    · subst h; exact Nat.le_max_left _ _
    · exact Nat.le_trans (ih h) (Nat.le_max_right _ _)

theorem blogId_lt_nextBlogId {store : List Blog} {b : Blog} (hb : b ∈ store) :
    b.id < nextBlogId store :=
  Nat.lt_succ_of_le (le_foldr_max _ _ (List.mem_map_of_mem Blog.id hb))

/-- Relational frame lemma: updating the store with a per-row function that
preserves ids commutes with a subsequent id lookup. -/
theorem getBlog_map_update (store : List Blog) (id : Nat) (g : Blog → Blog)
    (hg : ∀ b, (g b).id = b.id) :
    getBlog (store.map fun b => if b.id = id then g b else b) id =
      (getBlog store id).map g := by
  induction store with
  | nil => rfl
  | cons a t ih =>
    by_cases h : a.id = id
    · simp only [getBlog, List.map_cons, if_pos h]
      rw [List.find?_cons_of_pos _ (by simp [hg, h]),
        List.find?_cons_of_pos _ (by simp [h])]
      rfl
    · simp only [getBlog, List.map_cons, if_neg h]
      rw [List.find?_cons_of_neg _ (by simp [h]),
        List.find?_cons_of_neg _ (by simp [h])]
      exact ih

/-- Firestore frame lemma: overwriting the document stored under a key
commutes with a subsequent lookup of that key. -/
theorem fsGetBlog_map_set (store : List (String × BlogDoc)) (id : String) (d : BlogDoc) :
    fsGetBlog (store.map fun p => if p.1 == id then (p.1, d) else p) id =
      (fsGetBlog store id).map fun _ => d := by
  induction store with
  | nil => rfl
  | cons a t ih =>
    by_cases h : a.1 == id
    · simp only [fsGetBlog, List.map_cons, if_pos h]
      rw [List.find?_cons_of_pos _ (by simpa using h),
        List.find?_cons_of_pos _ (by simpa using h)]
      rfl
    · simp only [fsGetBlog, List.map_cons, if_neg h]
      rw [List.find?_cons_of_neg _ (by simpa using h),
        List.find?_cons_of_neg _ (by simpa using h)]
      exact ih

/-- The ids drizzle update/delete preserve rows: `applyUpdateBlog` keeps the
row id. -/
theorem applyUpdateBlog_id (b : Blog) (u : UpdateBlogData) (now : Nat) :
    (applyUpdateBlog b u now).id = b.id := rfl

/-- Looking up the targeted id after `updateBlog` yields the updated version
of whatever the lookup yielded before. -/
theorem getBlog_updateBlog (store : List Blog) (id : Nat) (u : UpdateBlogData) (now : Nat) :
    getBlog (updateBlog store id u now).1 id =
      (getBlog store id).map fun b => applyUpdateBlog b (stampUpdate u now) now := by
  simpa [updateBlog] using
    getBlog_map_update store id (fun b => applyUpdateBlog b (stampUpdate u now) now)
      (fun b => applyUpdateBlog_id ..)

/-- Looking up the targeted document after `fsUpdateBlog` yields the written
document when the document existed. -/
theorem fsGetBlog_fsUpdateBlog (fstore : List (String × BlogDoc)) (fid : String)
    (v : UpdateBlogInput) (now : Nat) (d : BlogDoc) (hd : fsGetBlog fstore fid = some d) :
    fsGetBlog (fsUpdateBlog fstore fid v now).1 fid =
      (fsUpdateBlog fstore fid v now).2.1 := by
  simp only [fsUpdateBlog, hd]
  rw [fsGetBlog_map_set, hd]
  rfl

/-! ### Sample inputs used by witnesses and counterexamples -/

/-- Create payload with status published and no `publishedAt` key. -/
def sampleCreatePublished : CreateBlogInput :=
  { title := "A", excerpt := none, content := "B", coverImageUrl := none
    status := Status.published, publishedAt := none }

/-- Project create payload (relational variant) with status published and no
`publishedAt` key. -/
def sampleProjectPublished : CreateProjectInput :=
  { title := "P", excerpt := none, abstract := none, projectScope := none
    isGroup := false, projectLink := none, githubLink := none
    documentationLink := none, content := none, coverImageUrl := none
    status := Status.published, publishedAt := none }

/-- Firestore project create payload with status published and null
`publishedAt` (the `projectBaseSchema` key is required-but-nullable). -/
def sampleFsProjectPublished : FsProjectCreateInput :=
  { title := "P", content := "C", projectLink := "u1", githubLink := "u2"
    documentationLink := none, coverImageUrl := "u3", isGroup := false
    status := Status.published, publishedAt := none }

/-! ### C1 -/

/-- C1 (amended): for every valid create payload with status `published` and
no supplied `publishedAt`, the relational create operations (`createBlog` and
`createProject`, reached through the POST routes) stamp `publishedAt` with the
time of the write — a timestamp ≥ the request time — and append the returned
row to the store; the Firestore POST handlers perform no such stamping and
store the new document with `publishedAt = null`. -/
theorem c1_publish_stamp (store : List Blog) (pstore : List Project)
    (fstore : List (String × BlogDoc)) (fpstore : List (String × ProjectDoc))
    (v : CreateBlogInput) (w : CreateProjectInput) (fw : FsProjectCreateInput)
    (newId newPid : String) (reqTime now : Nat)
    (hv : v.status = Status.published) (hvp : v.publishedAt = none)
    (hw : w.status = Status.published) (hwp : w.publishedAt = none)
    (hfwp : fw.publishedAt = none)
    (hreq : reqTime ≤ now) :
    ((createBlogRoutePost store v now).2.publishedAt = some now ∧
      (createBlogRoutePost store v now).1 = store ++ [(createBlogRoutePost store v now).2]) ∧
    ((createProjectRoutePost pstore w now).2.publishedAt = some now ∧
      (createProjectRoutePost pstore w now).1 =
        pstore ++ [(createProjectRoutePost pstore w now).2]) ∧
    (∀ t, (createBlogRoutePost store v now).2.publishedAt = some t → reqTime ≤ t) ∧
    ((fsCreateBlogPost fstore v newId now).1.getLast?).map (fun p => p.2.publishedAt) =
      some none ∧
    ((fsCreateProjectPost fpstore fw newPid now).1.getLast?).map (fun p => p.2.publishedAt) =
      some none := by
  refine ⟨⟨?_, ?_⟩, ⟨?_, ?_⟩, ?_, ?_, ?_⟩
  · simp [createBlogRoutePost, createBlog, dbInsertBlog, collapsePublishedAt, hv, hvp]
  · simp [createBlogRoutePost, createBlog, dbInsertBlog]
  · simp [createProjectRoutePost, createProject, dbInsertProject, collapsePublishedAt, hw, hwp]
  · simp [createProjectRoutePost, createProject, dbInsertProject]
  · intro t ht
    have : t = now := by
      simp [createBlogRoutePost, createBlog, dbInsertBlog, collapsePublishedAt, hv, hvp] at ht
      exact ht.symm
    simpa [this] using hreq
  · simp [fsCreateBlogPost, collapsePublishedAt, hvp, List.getLast?_concat]
  · simp [fsCreateProjectPost, hfwp, List.getLast?_concat]

/-- C1 witness: the amended theorem instantiated at the sample payloads, an
empty store, request time 3 and write time 5. -/
theorem c1_publish_stamp_witness :
    (createBlogRoutePost [] sampleCreatePublished 5).2.publishedAt = some 5 ∧
    (createProjectRoutePost [] sampleProjectPublished 5).2.publishedAt = some 5 ∧
    ((fsCreateBlogPost [] sampleCreatePublished "d0" 5).1.getLast?).map
      (fun p => p.2.publishedAt) = some none := by
  have h := c1_publish_stamp [] [] [] [] sampleCreatePublished sampleProjectPublished
    sampleFsProjectPublished "d0" "p0" 3 5 rfl rfl rfl rfl rfl (by decide)
  exact ⟨h.1.1, h.2.1.1, h.2.2.2.1⟩

/-- C1 counterexample: at the concrete payload `{title: "A", content: "B",
status: "published"}` with no `publishedAt` and write time 5, the Firestore
POST /blogs handler stores the document with `publishedAt = null`, not the
current time — the claim fails for the Firestore backend variant. -/
theorem c1_counterexample :
    sampleCreatePublished.status = Status.published ∧
    sampleCreatePublished.publishedAt = none ∧
    (fsGetBlog (fsCreateBlogPost [] sampleCreatePublished "d0" 5).1 "d0").map
      BlogDoc.publishedAt = some none := by
  exact ⟨rfl, rfl, rfl⟩

/-! ### C2 -/

/-- Draft blog document with no publish date (witness material). -/
def draftDoc : BlogDoc :=
  { title := "A", excerpt := none, content := "B", coverImageUrl := none
    status := Status.draft, publishedAt := none, createdAt := 1, updatedAt := 1 }

/-- Draft relational blog row with no publish date (witness material). -/
def draftBlog : Blog :=
  { id := 1, title := "A", excerpt := none, content := "B", coverImageUrl := none
    status := Status.draft, publishedAt := none, createdAt := 1, updatedAt := 1 }

/-- Update payload that only sets status to published. -/
def statusPublishedUpdate : UpdateBlogInput :=
  { title := none, excerpt := none, content := none, coverImageUrl := none
    status := some Status.published, publishedAt := none }

/-- C2 (amended): an update that sets status to `published` on an entity whose
`publishedAt` was previously null, without supplying `publishedAt`, yields an
entity with `publishedAt` stamped to the update time in the relational
variant; the Firestore update handler does not stamp, so there the updated
document keeps `publishedAt = null`. -/
theorem c2_update_publish_stamp (store : List Blog) (fstore : List (String × BlogDoc))
    (id : Nat) (fid : String) (v : UpdateBlogInput) (now : Nat)
    (b : Blog) (hb : getBlog store id = some b) (_hbp : b.publishedAt = none)
    (d : BlogDoc) (hd : fsGetBlog fstore fid = some d) (hdp : d.publishedAt = none)
    (hs : v.status = some Status.published) (hp : v.publishedAt = none) :
    ((updateBlogRoutePut store id v now).2.1).map Blog.publishedAt = some (some now) ∧
    ((fsUpdateBlog fstore fid v now).2.1).map BlogDoc.publishedAt = some none := by
  constructor
  · have hfind : (store.find? fun b => b.id == id) = some b := hb
    simp [updateBlogRoutePut, updateBlog, hfind, stampUpdate, routeUpdateData,
      collapsePublishedAt, hs, hp, applyUpdateBlog]
  · simp [fsUpdateBlog, hd, hp, hdp]

/-- C2 witness: the amended theorem instantiated at singleton stores holding a
draft entity with no publish date and the status-only update, at time 7. -/
theorem c2_update_publish_stamp_witness :
    ((updateBlogRoutePut [draftBlog] 1 statusPublishedUpdate 7).2.1).map
      Blog.publishedAt = some (some 7) ∧
    ((fsUpdateBlog [("d0", draftDoc)] "d0" statusPublishedUpdate 7).2.1).map
      BlogDoc.publishedAt = some none :=
  c2_update_publish_stamp [draftBlog] [("d0", draftDoc)] 1 "d0"
    statusPublishedUpdate 7 draftBlog rfl rfl draftDoc rfl rfl rfl rfl

/-- C2 counterexample: updating the draft document `draftDoc` (stored under id
"d0", `publishedAt = null`) with `{status: "published"}` and no `publishedAt`
through the Firestore PUT handler returns a document whose `publishedAt` is
still null — the claim fails for the Firestore backend variant. -/
theorem c2_counterexample :
    draftDoc.publishedAt = none ∧
    statusPublishedUpdate.status = some Status.published ∧
    statusPublishedUpdate.publishedAt = none ∧
    ((fsUpdateBlog [("d0", draftDoc)] "d0" statusPublishedUpdate 7).2.1).map
      BlogDoc.publishedAt = some none :=
  ⟨rfl, rfl, rfl, rfl⟩

/-! ### C3 -/

/-- C3 (confirmed): an update payload carrying an explicit `publishedAt: null`
and not setting status to published clears the stored `publishedAt` in the
Firestore variant, while the relational route converts the falsy value to
`undefined` so the stored `publishedAt` is unchanged. -/
theorem c3_explicit_null_divergence (store : List Blog) (fstore : List (String × BlogDoc))
    (id : Nat) (fid : String) (v : UpdateBlogInput) (now : Nat)
    (b : Blog) (hb : getBlog store id = some b)
    (d : BlogDoc) (hd : fsGetBlog fstore fid = some d)
    (hp : v.publishedAt = some none) (hs : v.status ≠ some Status.published) :
    ((fsUpdateBlog fstore fid v now).2.1).map BlogDoc.publishedAt = some none ∧
    (fsGetBlog (fsUpdateBlog fstore fid v now).1 fid).map BlogDoc.publishedAt =
      some none ∧
    ((updateBlogRoutePut store id v now).2.1).map Blog.publishedAt =
      some b.publishedAt ∧
    (getBlog (updateBlogRoutePut store id v now).1 id).map Blog.publishedAt =
      some b.publishedAt := by
  have hfind : (store.find? fun b => b.id == id) = some b := hb
  refine ⟨?_, ?_, ?_, ?_⟩
  · simp [fsUpdateBlog, hd, hp]
  · rw [fsGetBlog_fsUpdateBlog fstore fid v now d hd]
    simp [fsUpdateBlog, hd, hp]
  · simp [updateBlogRoutePut, updateBlog, hfind, stampUpdate, routeUpdateData, hs,
      applyUpdateBlog, hp, collapsePublishedAt]
  · rw [show updateBlogRoutePut store id v now =
      updateBlog store id (routeUpdateData v) now from rfl]
    rw [getBlog_updateBlog]
    simp [hb, stampUpdate, routeUpdateData, hs, applyUpdateBlog, hp, collapsePublishedAt]

/-- Published blog document with a set publish date (witness material). -/
def publishedDoc : BlogDoc :=
  { title := "A", excerpt := none, content := "B", coverImageUrl := none
    status := Status.published, publishedAt := some 4, createdAt := 1, updatedAt := 1 }

/-- Published relational blog row with a set publish date (witness material). -/
def publishedBlog : Blog :=
  { id := 1, title := "A", excerpt := none, content := "B", coverImageUrl := none
    status := Status.published, publishedAt := some 4, createdAt := 1, updatedAt := 1 }

/-- Update payload carrying an explicit `publishedAt: null` and no other key. -/
def explicitNullUpdate : UpdateBlogInput :=
  { title := none, excerpt := none, content := none, coverImageUrl := none
    status := none, publishedAt := some none }

/-- C3 witness: the theorem instantiated at a published entity with a set
publish date, updated with an explicit `publishedAt: null` (and no status
change), at time 9. -/
theorem c3_explicit_null_divergence_witness :
    ((fsUpdateBlog [("d0", publishedDoc)] "d0" explicitNullUpdate 9).2.1).map
      BlogDoc.publishedAt = some none ∧
    ((updateBlogRoutePut [publishedBlog] 1 explicitNullUpdate 9).2.1).map
      Blog.publishedAt = some (some 4) := by
  have h := c3_explicit_null_divergence [publishedBlog] [("d0", publishedDoc)] 1 "d0"
    explicitNullUpdate 9 publishedBlog rfl publishedDoc rfl rfl (by decide)
  exact ⟨h.1, h.2.2.1⟩

/-! ### C4 -/

/-- Update payload containing only a title. -/
def titleOnlyUpdate (t : String) : UpdateBlogInput :=
  { title := some t, excerpt := none, content := none, coverImageUrl := none
    status := none, publishedAt := none }

/-- C4 (confirmed): an update whose payload contains only a title returns and
stores an entity equal to the previous one except for the new title and the
refreshed `updatedAt`, in both backend variants. -/
theorem c4_partial_update_frame (store : List Blog) (fstore : List (String × BlogDoc))
    (id : Nat) (fid : String) (t : String) (now : Nat)
    (b : Blog) (hb : getBlog store id = some b)
    (d : BlogDoc) (hd : fsGetBlog fstore fid = some d) :
    (updateBlogRoutePut store id (titleOnlyUpdate t) now).2.1 =
      some { b with title := t, updatedAt := now } ∧
    getBlog (updateBlogRoutePut store id (titleOnlyUpdate t) now).1 id =
      some { b with title := t, updatedAt := now } ∧
    (fsUpdateBlog fstore fid (titleOnlyUpdate t) now).2.1 =
      some { d with title := t, updatedAt := now } ∧
    fsGetBlog (fsUpdateBlog fstore fid (titleOnlyUpdate t) now).1 fid =
      some { d with title := t, updatedAt := now } := by
  have hfind : (store.find? fun b => b.id == id) = some b := hb
  refine ⟨?_, ?_, ?_, ?_⟩
  · simp [updateBlogRoutePut, updateBlog, hfind, stampUpdate, routeUpdateData,
      titleOnlyUpdate, collapsePublishedAt, applyUpdateBlog]
  · rw [show updateBlogRoutePut store id (titleOnlyUpdate t) now =
      updateBlog store id (routeUpdateData (titleOnlyUpdate t)) now from rfl]
    rw [getBlog_updateBlog]
    simp [hb, stampUpdate, routeUpdateData, titleOnlyUpdate, collapsePublishedAt,
      applyUpdateBlog]
  · simp [fsUpdateBlog, hd, titleOnlyUpdate, fsMergeField]
  · rw [fsGetBlog_fsUpdateBlog fstore fid (titleOnlyUpdate t) now d hd]
    simp [fsUpdateBlog, hd, titleOnlyUpdate, fsMergeField]

/-- C4 witness: the theorem instantiated at the singleton stores holding
`publishedBlog` / `publishedDoc`, with the title-only payload at time 11. -/
theorem c4_partial_update_frame_witness :
    (updateBlogRoutePut [publishedBlog] 1 (titleOnlyUpdate "X") 11).2.1 =
      some { publishedBlog with title := "X", updatedAt := 11 } ∧
    (fsUpdateBlog [("d0", publishedDoc)] "d0" (titleOnlyUpdate "X") 11).2.1 =
      some { publishedDoc with title := "X", updatedAt := 11 } := by
  have h := c4_partial_update_frame [publishedBlog] [("d0", publishedDoc)] 1 "d0"
    "X" 11 publishedBlog rfl publishedDoc rfl
  exact ⟨h.1, h.2.2.1⟩

/-! ### C5 -/

/-- C5 (amended): the relational blog route failures all carry
`{success: false, data: null, error}`; the Firestore route failures carry
`{success: false, error}` with no `data` key at all; the validation-middleware
400 bodies carry only `{error, details}` with neither `success` nor `data`;
and no success envelope carries an `error` key. -/
theorem c5_envelope_shapes (id : Nat) (fid : String) (details : ValidationErrors)
    (data : Json) (message : String) :
    (∀ j ∈ relationalBlogFailureBodies id, isWellFormedFailure j) ∧
    (∀ j ∈ firestoreBlogFailureBodies fid,
      j.lookup "success" = some (Json.bool false) ∧
      (∃ s, j.lookup "error" = some (Json.str s)) ∧
      j.lookup "data" = none) ∧
    (∀ j ∈ middlewareFailureBodies details,
      (∃ s, j.lookup "error" = some (Json.str s)) ∧
      j.lookup "success" = none ∧ j.lookup "data" = none) ∧
    ((relSuccessBody data message).lookup "error" = none ∧
      (fsGetSuccessBody data).lookup "error" = none ∧
      (relSuccessBody data message).lookup "success" = some (Json.bool true)) := by
  refine ⟨?_, ?_, ?_, rfl, rfl, rfl⟩
  · intro j hj
    simp only [relationalBlogFailureBodies, List.mem_cons, List.not_mem_nil,
      or_false] at hj
    rcases hj with rfl | rfl | rfl | rfl | rfl | rfl
    all_goals exact ⟨rfl, rfl, _, rfl⟩
  · intro j hj
    simp only [firestoreBlogFailureBodies, List.mem_cons, List.not_mem_nil,
      or_false] at hj
    rcases hj with rfl | rfl | rfl | rfl | rfl | rfl
    all_goals exact ⟨rfl, ⟨_, rfl⟩, rfl⟩
  · intro j hj
    simp only [middlewareFailureBodies, List.mem_cons, List.not_mem_nil,
      or_false] at hj
    rcases hj with rfl | rfl | rfl | rfl
    all_goals exact ⟨⟨_, rfl⟩, rfl, rfl⟩

/-- C5 witness: the amended theorem instantiated at blog id 7, document id
"d0", one validation detail, and a null success payload. -/
theorem c5_envelope_shapes_witness :
    isWellFormedFailure (relBlogNotFound 7) ∧
    (fsFetchBlogsFailure.lookup "data" = none) ∧
    ((validateBodyFailure [("title", "Title is required")]).lookup "success" = none) := by
  have h := c5_envelope_shapes 7 "d0" [("title", "Title is required")] Json.null "ok"
  refine ⟨h.1 _ ?_, (h.2.1 fsFetchBlogsFailure ?_).2.2, (h.2.2.1 _ ?_).2.1⟩
  · simp [relationalBlogFailureBodies]
  · simp [firestoreBlogFailureBodies]
  · simp [middlewareFailureBodies]

/-- C5 counterexample: the 400 body of `validateBody` on a failed schema parse
is `{error: "Validation failed", details: [...]}` — it has neither a
`success: false` nor a `data: null` member, so it is a failure response that
violates the claimed envelope invariant. -/
theorem c5_counterexample :
    (validateBodyFailure [("title", "Title is required")]).lookup "success" = none ∧
    (validateBodyFailure [("title", "Title is required")]).lookup "data" = none ∧
    ¬ isWellFormedFailure (validateBodyFailure [("title", "Title is required")]) := by
  refine ⟨rfl, rfl, fun h => ?_⟩
  have hs : (validateBodyFailure [("title", "Title is required")]).lookup "success" =
      none := rfl
  exact Option.noConfusion (hs.symm.trans h.1)

/-! ### C6 -/

/-- C6 (confirmed): in both variants, listing with the `published` filter
returns exactly the entities whose status is `published`; listing without a
filter returns all entities (a permutation of the store) ordered by
`createdAt` descending; and when nothing matches the filter the result is the
empty list rather than a failure. -/
theorem c6_list_filter_order (store : List Blog) (fstore : List (String × BlogDoc)) :
    (∀ b, b ∈ getAllBlogs store (some Status.published) ↔
      b ∈ store ∧ b.status = Status.published) ∧
    (getAllBlogs store none).Perm store ∧
    List.Sorted createdAtDesc (getAllBlogs store none) ∧
    ((∀ b ∈ store, b.status ≠ Status.published) →
      getAllBlogs store (some Status.published) = []) ∧
    (∀ p, p ∈ fsGetBlogs fstore (some Status.published) ↔
      p ∈ fstore ∧ p.2.status = Status.published) ∧
    (fsGetBlogs fstore none).Perm fstore ∧
    List.Sorted fsCreatedAtDesc (fsGetBlogs fstore none) := by
  refine ⟨?_, ?_, ?_, ?_, ?_, ?_, ?_⟩
  · intro b
    simp [getAllBlogs, List.mem_filter]
  · exact List.perm_insertionSort createdAtDesc store
  · exact List.sorted_insertionSort createdAtDesc store
  · intro h
    have hf : store.filter (fun b => b.status == Status.published) = [] :=
      List.filter_eq_nil_iff.mpr (by simpa using h)
    simp [getAllBlogs, hf]
  · intro p
    simp [fsGetBlogs, List.mem_filter]
  · exact List.perm_insertionSort fsCreatedAtDesc fstore
  · exact List.sorted_insertionSort fsCreatedAtDesc fstore

/-- C6 witness: with the two-row store `[draftBlog, publishedBlog]`, the
published filter keeps exactly the published row, filtering a draft-only
store yields `[]`, and the unfiltered listing is sorted by `createdAt`
descending. -/
theorem c6_list_filter_order_witness :
    publishedBlog ∈ getAllBlogs [draftBlog, publishedBlog] (some Status.published) ∧
    getAllBlogs [draftBlog] (some Status.published) = [] ∧
    List.Sorted createdAtDesc (getAllBlogs [draftBlog, publishedBlog] none) := by
  refine ⟨((c6_list_filter_order [draftBlog, publishedBlog] []).1 publishedBlog).mpr
      ⟨by simp, rfl⟩,
    (c6_list_filter_order [draftBlog] []).2.2.2.1 ?_,
    (c6_list_filter_order [draftBlog, publishedBlog] []).2.2.1⟩
  intro b hb
  have : b = draftBlog := by simpa using hb
  subst this
  decide

/-! ### C7 -/

/-- Freshly inserted rows are found by a subsequent id lookup. -/
theorem getBlog_append_fresh (store : List Blog) (row : Blog)
    (h : ∀ b ∈ store, b.id ≠ row.id) :
    getBlog (store ++ [row]) row.id = some row := by
  rw [getBlog, List.find?_append]
  have h1 : store.find? (fun b => b.id == row.id) = none :=
    List.find?_eq_none.mpr (by intro x hx; simpa using h x hx)
  rw [h1]
  simp

/-- Freshly added documents are found by a subsequent key lookup. -/
theorem fsGetBlog_append_fresh (fstore : List (String × BlogDoc)) (key : String)
    (doc : BlogDoc) (h : ∀ p ∈ fstore, p.1 ≠ key) :
    fsGetBlog (fstore ++ [(key, doc)]) key = some doc := by
  rw [fsGetBlog, List.find?_append]
  have h1 : fstore.find? (fun p => p.1 == key) = none :=
    List.find?_eq_none.mpr (by intro x hx; simpa using h x hx)
  rw [h1]
  simp

/-- C7 (amended): the relational POST returns the full created row — with its
assigned fresh id and both timestamps — and a subsequent GET by that id yields
exactly the returned row; the Firestore POST /blogs responds with
`data: { id }` only (not the full entity), though a GET by that returned id
does yield the stored document built from the payload. -/
theorem c7_create_roundtrip (store : List Blog) (fstore : List (String × BlogDoc))
    (v : CreateBlogInput) (newId : String) (now : Nat)
    (hfresh : ∀ p ∈ fstore, p.1 ≠ newId) :
    getBlog (createBlogRoutePost store v now).1 (createBlogRoutePost store v now).2.id =
      some (createBlogRoutePost store v now).2 ∧
    (createBlogRoutePost store v now).2.id = nextBlogId store ∧
    (createBlogRoutePost store v now).2.createdAt = now ∧
    (createBlogRoutePost store v now).2.updatedAt = now ∧
    (fsCreateBlogPost fstore v newId now).2 = Json.obj [("id", Json.str newId)] ∧
    fsGetBlog (fsCreateBlogPost fstore v newId now).1 newId =
      some { title := v.title, excerpt := v.excerpt, content := v.content
             coverImageUrl := v.coverImageUrl, status := v.status
             publishedAt := collapsePublishedAt v.publishedAt
             createdAt := now, updatedAt := now } := by
  have hid : (createBlogRoutePost store v now).2.id = nextBlogId store := rfl
  have hkey : ∀ b ∈ store, b.id ≠ (createBlogRoutePost store v now).2.id := by
    intro b hb
    rw [hid]
    exact Nat.ne_of_lt (blogId_lt_nextBlogId hb)
  refine ⟨?_, hid, rfl, rfl, rfl, ?_⟩
  · rw [show (createBlogRoutePost store v now).1 =
      store ++ [(createBlogRoutePost store v now).2] from rfl]
    exact getBlog_append_fresh store _ hkey
  · rw [show (fsCreateBlogPost fstore v newId now).1 =
      fstore ++ [(newId,
        { title := v.title, excerpt := v.excerpt, content := v.content
          coverImageUrl := v.coverImageUrl, status := v.status
          publishedAt := collapsePublishedAt v.publishedAt
          createdAt := now, updatedAt := now })] from rfl]
    exact fsGetBlog_append_fresh fstore newId _ hfresh

/-- C7 witness: the amended theorem instantiated at empty stores, the sample
payload, document id "d0" and time 5. -/
theorem c7_create_roundtrip_witness :
    getBlog (createBlogRoutePost [] sampleCreatePublished 5).1
        (createBlogRoutePost [] sampleCreatePublished 5).2.id =
      some (createBlogRoutePost [] sampleCreatePublished 5).2 ∧
    fsGetBlog (fsCreateBlogPost [] sampleCreatePublished "d0" 5).1 "d0" =
      some { title := sampleCreatePublished.title
             excerpt := sampleCreatePublished.excerpt
             content := sampleCreatePublished.content
             coverImageUrl := sampleCreatePublished.coverImageUrl
             status := sampleCreatePublished.status
             publishedAt := collapsePublishedAt sampleCreatePublished.publishedAt
             createdAt := 5, updatedAt := 5 } := by
  have h := c7_create_roundtrip [] [] sampleCreatePublished "d0" 5 (by simp)
  exact ⟨h.1, h.2.2.2.2.2⟩

/-- C7 counterexample: at the concrete sample payload, the Firestore POST
/blogs response data is `{id: "d0"}` alone — it contains neither the
`createdAt`/`updatedAt` timestamps nor any other field of the created entity,
so the create operation does not return the full created entity. -/
theorem c7_counterexample :
    (fsCreateBlogPost [] sampleCreatePublished "d0" 5).2 =
      Json.obj [("id", Json.str "d0")] ∧
    ((fsCreateBlogPost [] sampleCreatePublished "d0" 5).2).lookup "createdAt" = none ∧
    ((fsCreateBlogPost [] sampleCreatePublished "d0" 5).2).lookup "updatedAt" = none ∧
    ((fsCreateBlogPost [] sampleCreatePublished "d0" 5).2).lookup "title" = none :=
  ⟨rfl, rfl, rfl, rfl⟩

/-! ### C8 -/

/-- A relational UPDATE statement whose WHERE clause matches no row leaves the
table unchanged. -/
theorem updateBlog_store_not_found (store : List Blog) (id : Nat) (u : UpdateBlogData)
    (now : Nat) (h : ∀ b ∈ store, b.id ≠ id) : (updateBlog store id u now).1 = store := by
  simp only [updateBlog]
  rw [List.map_congr_left (fun b hb => if_neg (h b hb))]
  simp

/-- C8 (amended): when the id does not resolve to an existing entity, both
variants return the not-found result and leave the store unchanged; the
Firestore handlers check existence first and issue no write call, but the
relational storage issues its UPDATE/DELETE statement unconditionally (one
statement even on the not-found path) and derives not-found from the empty
returning set. -/
theorem c8_not_found_no_write (store : List Blog) (fstore : List (String × BlogDoc))
    (id : Nat) (fid : String) (v : UpdateBlogInput) (now : Nat)
    (h : getBlog store id = none) (hf : fsGetBlog fstore fid = none) :
    (updateBlogRoutePut store id v now).2.1 = none ∧
    (updateBlogRoutePut store id v now).1 = store ∧
    (updateBlogRoutePut store id v now).2.2 = 1 ∧
    (deleteBlog store id).2.1 = false ∧
    (deleteBlog store id).1 = store ∧
    fsUpdateBlog fstore fid v now = (fstore, none, 0) ∧
    fsDeleteBlog fstore fid = (fstore, false, 0) := by
  have hfind : store.find? (fun b => b.id == id) = none := h
  have hid : ∀ b ∈ store, b.id ≠ id := by
    intro b hb
    have := List.find?_eq_none.mp hfind b hb
    simpa using this
  refine ⟨?_, ?_, rfl, ?_, ?_, ?_, ?_⟩
  · simp [updateBlogRoutePut, updateBlog, hfind]
  · exact updateBlog_store_not_found store id (routeUpdateData v) now hid
  · simp only [deleteBlog]
    rw [List.any_eq_false]
    intro b hb
    simpa using hid b hb
  · simp only [deleteBlog]
    rw [List.filter_eq_self]
    intro b hb
    simpa using hid b hb
  · simp [fsUpdateBlog, hf]
  · simp [fsDeleteBlog, hf]

/-- Update payload with no field present. -/
def noFieldsUpdate : UpdateBlogInput :=
  { title := none, excerpt := none, content := none, coverImageUrl := none
    status := none, publishedAt := none }

/-- C8 witness: the amended theorem instantiated at empty stores and missing
ids. -/
theorem c8_not_found_no_write_witness :
    (updateBlogRoutePut [] 1 noFieldsUpdate 0).2.1 = none ∧
    (updateBlogRoutePut [] 1 noFieldsUpdate 0).1 = [] ∧
    fsUpdateBlog [] "d0" noFieldsUpdate 0 = ([], none, 0) ∧
    fsDeleteBlog [] "d0" = ([], false, 0) := by
  have h := c8_not_found_no_write [] [] 1 "d0" noFieldsUpdate 0 rfl rfl
  exact ⟨h.1, h.2.1, h.2.2.2.2.2.1, h.2.2.2.2.2.2⟩

/-- C8 counterexample: on a store with no blog of id 1, the relational update
and delete still issue one SQL write statement each (the UPDATE/DELETE runs
unconditionally and not-found is inferred from the empty returning set), so
on the relational path the existence check does not precede the mutation
attempt and a write to the store is attempted. -/
theorem c8_counterexample :
    getBlog [] 1 = none ∧
    (updateBlogRoutePut [] 1 noFieldsUpdate 0).2.1 = none ∧
    (updateBlogRoutePut [] 1 noFieldsUpdate 0).2.2 = 1 ∧
    (deleteBlog ([] : List Blog) 1).2.1 = false ∧
    (deleteBlog ([] : List Blog) 1).2.2 = 1 :=
  ⟨rfl, rfl, rfl, rfl, rfl⟩

/-! ### C9 -/

/-- C9 (amended): all three upload handlers reject a file larger than 5 MiB
with a 400 whose message names the 5MB limit, writing nothing; the two
local-filesystem handlers additionally reject content types outside
{jpeg, png, webp} before writing; the Google-Cloud-Storage handler performs no
content-type check at all, so a small non-image file is stored in the
bucket. -/
theorem c9_upload_validation (f : UploadedFile) (suffix : String) (disk : List String)
    (bucket : List (String × String)) :
    (allowedTypes.contains f.mimetype = true → f.size > maxUploadSize →
      uploadImage (some f) suffix disk =
        (disk, UploadOutcome.failure 400 "File size must be less than 5MB") ∧
      indexUploadPost (some f) suffix disk =
        (disk, UploadOutcome.failure 400 "File size must be less than 5MB")) ∧
    (f.size > maxUploadSize →
      gcsUploadPost (some f) suffix bucket =
        (bucket, UploadOutcome.failure 400 "Ukuran file harus kurang dari 5MB")) ∧
    (allowedTypes.contains f.mimetype = false →
      uploadImage (some f) suffix disk =
        (disk, UploadOutcome.failure 400 "Only image files (JPEG, PNG, WebP) are allowed") ∧
      indexUploadPost (some f) suffix disk =
        (disk, UploadOutcome.failure 400 "Only image files (JPEG, PNG, WebP) are allowed")) := by
  refine ⟨fun ht hs => ?_, fun hs => ?_, fun ht => ?_⟩
  · have htm : f.mimetype ∈ allowedTypes := by simpa using ht
    exact ⟨by simp [uploadImage, htm, hs], by simp [indexUploadPost, htm, hs]⟩
  · simp [gcsUploadPost, hs]
  · have htm : f.mimetype ∉ allowedTypes := by simpa using ht
    exact ⟨by simp [uploadImage, htm], by simp [indexUploadPost, htm]⟩

/-- Ten-megabyte JPEG file (over the 5 MiB limit). -/
def tenMBFile : UploadedFile :=
  { name := "big.jpg", mimetype := "image/jpeg", size := 10 * 1024 * 1024 }

/-- C9 witness: a 10 MB JPEG is rejected with the size-limit message by all
three handlers and nothing is written. -/
theorem c9_upload_validation_witness :
    uploadImage (some tenMBFile) "s" [] =
      ([], UploadOutcome.failure 400 "File size must be less than 5MB") ∧
    indexUploadPost (some tenMBFile) "s" [] =
      ([], UploadOutcome.failure 400 "File size must be less than 5MB") ∧
    gcsUploadPost (some tenMBFile) "s" [] =
      ([], UploadOutcome.failure 400 "Ukuran file harus kurang dari 5MB") := by
  have h := c9_upload_validation tenMBFile "s" [] []
  exact ⟨(h.1 (by decide) (by decide)).1, (h.1 (by decide) (by decide)).2,
    h.2.1 (by decide)⟩

/-- Small plain-text file (disallowed content type, within the size limit). -/
def plainTextFile : UploadedFile :=
  { name := "a.txt", mimetype := "text/plain", size := 100 }

/-- C9 counterexample: the Google-Cloud-Storage upload handler accepts a
100-byte `text/plain` file — a content type outside {jpeg, png, webp} — with
201 and writes the object (with its non-image content type) to the bucket, so
the content-type constraint is not enforced before calling object storage. -/
theorem c9_counterexample :
    allowedTypes.contains plainTextFile.mimetype = false ∧
    gcsUploadPost (some plainTextFile) "s" [] =
      ([("image-s.txt", "text/plain")], UploadOutcome.stored 201 "image-s.txt") := by
  constructor
  · decide
  · decide

/-! ### C10 -/

/-- C10 (amended): the blog create schema (and the relational project create
schema) default an absent `status` to `draft`, and a created blog with draft
status and no `publishedAt` has `publishedAt = null` in both variants; but the
Firestore project POST validates its body against `projectBaseSchema`, in
which `status` is required — a payload without `status` fails validation with
a `Required` issue for `status` instead of being defaulted. -/
theorem c10_status_default (raw : RawCreateBlog) (praw : RawCreateProject)
    (fraw : RawFsProjectCreate) (store : List Blog) (fstore : List (String × BlogDoc))
    (newId : String) (now : Nat)
    (hs : raw.status = none) (hps : praw.status = none) (hfs : fraw.status = none) :
    (∀ v, createBlogSchemaParse raw = Except.ok v →
      v.status = Status.draft ∧ v.publishedAt = raw.publishedAt) ∧
    (∀ w, createProjectSchemaParse praw = Except.ok w → w.status = Status.draft) ∧
    (∀ v : CreateBlogInput, v.status = Status.draft → v.publishedAt = none →
      (createBlogRoutePost store v now).2.status = Status.draft ∧
      (createBlogRoutePost store v now).2.publishedAt = none ∧
      ((fsCreateBlogPost fstore v newId now).1.getLast?).map
          (fun p => (p.2.status, p.2.publishedAt)) = some (Status.draft, none)) ∧
    (∃ e, projectBaseSchemaParse fraw = Except.error e ∧ ("status", "Required") ∈ e) := by
  refine ⟨?_, ?_, ?_, ?_⟩
  · intro v hv
    unfold createBlogSchemaParse at hv
    split at hv
    · cases hv
      exact ⟨by simp [hs], rfl⟩
    · exact absurd hv (by simp)
  · intro w hw
    unfold createProjectSchemaParse at hw
    split at hw
    · cases hw
      simp [hps]
    · exact absurd hw (by simp)
  · intro v hvs hvp
    refine ⟨?_, ?_, ?_⟩
    · simp [createBlogRoutePost, createBlog, dbInsertBlog, hvs]
    · simp [createBlogRoutePost, createBlog, dbInsertBlog, collapsePublishedAt, hvs, hvp]
    · simp [fsCreateBlogPost, collapsePublishedAt, hvs, hvp, List.getLast?_concat]
  · refine ⟨projectBaseErrors fraw, ?_, ?_⟩
    · unfold projectBaseSchemaParse
      rw [hfs]
    · simp [projectBaseErrors, hfs]

/-- Blog create payload without a `status` key (and no `publishedAt`). -/
def rawBlogNoStatus : RawCreateBlog :=
  { title := "A", excerpt := none, content := "B", coverImageUrl := none
    status := none, publishedAt := none }

/-- C10 witness: parsing `{title: "A", content: "B"}` defaults status to
draft, and creating from the defaulted payload yields a draft entity with
null `publishedAt` in both variants. -/
theorem c10_status_default_witness :
    createBlogSchemaParse rawBlogNoStatus =
      Except.ok { title := "A", excerpt := none, content := "B", coverImageUrl := none
                  status := Status.draft, publishedAt := none } ∧
    (createBlogRoutePost []
        { title := "A", excerpt := none, content := "B", coverImageUrl := none
          status := Status.draft, publishedAt := none } 5).2.status = Status.draft ∧
    (createBlogRoutePost []
        { title := "A", excerpt := none, content := "B", coverImageUrl := none
          status := Status.draft, publishedAt := none } 5).2.publishedAt = none := by
  have h := c10_status_default rawBlogNoStatus
    { title := "P", excerpt := none, abstract := none, projectScope := none
      isGroup := none, projectLink := none, githubLink := none
      documentationLink := none, content := none, coverImageUrl := none
      status := none, publishedAt := none }
    { title := some "P", content := some "C", projectLink := some "u1"
      githubLink := some "u2", documentationLink := some none
      coverImageUrl := some "u3", isGroup := some false, status := none
      publishedAt := some none }
    [] [] "d0" 5 rfl rfl rfl
  have h3 := h.2.2.1
    { title := "A", excerpt := none, content := "B", coverImageUrl := none
      status := Status.draft, publishedAt := none } rfl rfl
  exact ⟨rfl, h3.1, h3.2.1⟩

/-- Firestore project create payload with every required key except
`status`. -/
def fsProjectPayloadNoStatus : RawFsProjectCreate :=
  { title := some "P", content := some "C", projectLink := some "u1"
    githubLink := some "u2", documentationLink := some none
    coverImageUrl := some "u3", isGroup := some false, status := none
    publishedAt := some none }

/-- C10 counterexample: a Firestore project create payload lacking only
`status` is rejected by `projectBaseSchema` with `Required` for `status` —
status is not defaulted to draft on the Firestore project create path. -/
theorem c10_counterexample :
    projectBaseSchemaParse fsProjectPayloadNoStatus =
      Except.error [("status", "Required")] := rfl

end BunBackend
